import Mathlib

/-!
Shallow embedding of the lock subsystem of ocuroot/gittools.

Sources embedded:
- src/lock/lock.go  : Lock record, Locking session, AcquireLock, ReleaseLock,
                      RefreshLock, pushWithRetry, ReadLock, OwnsLock.
- src/repo.go       : Repo.Push classification of git CLI output.

Modelling conventions:
- Wall-clock times are integers; Go's t.After(u) is t > u.
- The injected session clock is a single value per call (the Go code calls
  g.now() a handful of times in one operation; no claim depends on the clock
  advancing mid-call).
- External git/OS operations are oracles: each call site is given its outcome
  through an environment record, and its effect on the lock file and on the
  local commit history is made explicit on a LocalState.
- LocalState tracks only the lock file path: its working-tree content and its
  content at each local commit (head of the list is HEAD).
-/

namespace Gittools

/-- The lock record stored as JSON (lock.go 16-21). -/
structure Lock where
  owner : String
  createdAt : Int
  expiresAt : Int
  description : String
deriving DecidableEq, Repr

/-- State of the lock file on disk as seen by os.ReadFile + json.Unmarshal:
absent, unreadable (read error other than not-exist), present but not valid
JSON, or present with a parsed record. -/
inductive FileState
| absent
| unreadable
| invalid
| valid (l : Lock)
deriving DecidableEq, Repr

/-- Errors ReadLock can surface (lock.go 337, 343): a wrapped read failure or
a wrapped parse failure. -/
inductive ReadErr
| readFailed
| parseFailed
deriving DecidableEq, Repr

/-- ReadLock (lock.go 324-353), state-passing on the lock file. The function
only reads: MkdirAll touches directories, os.ReadFile and json.Unmarshal do
not write, so the resulting file state is the input one. Returns .ok none when
the file is absent or when g.now().After(lock.ExpiresAt). -/
def ReadLock (f : FileState) (now : Int) : Except ReadErr (Option Lock) × FileState :=
  match f with
  | .absent => (.ok none, .absent)
  | .unreadable => (.error .readFailed, .unreadable)
  | .invalid => (.error .parseFailed, .invalid)
  | .valid l => if now > l.expiresAt then (.ok none, .valid l) else (.ok (some l), .valid l)

/-- OwnsLock (lock.go 359-365). The Go error component is always nil and is
omitted. -/
def OwnsLock (lock : Option Lock) (lockKey : String) : Bool :=
  match lock with
  | none => false
  | some l => l.owner == lockKey

/-- Classified push failures (repo.go 12-27), plus the generic fallthrough of
repo.go 179-182. -/
inductive PushErr
| fetchFirst
| nonFastForward
| permissionDenied
| rejected
| remoteRefMissing
| generic
deriving DecidableEq, Repr

/-- Classified rebase failures (repo.go 29-39), plus the generic fallthrough
of repo.go 286-289. -/
inductive RebaseErr
| mergeConflict
| alreadyInProgress
| noCommitsApplied
| generic
deriving DecidableEq, Repr

/-- An error surfaced by pushWithRetry: either the last push failure or a
rebase failure (lock.go 239). -/
inductive GitErr
| push (e : PushErr)
| rebase (e : RebaseErr)
deriving DecidableEq, Repr

/-- Go strings.Contains(s, pat): pat occurs as a contiguous substring of s. -/
def containsSub (s pat : String) : Bool :=
  decide (List.IsInfix pat.toList s.toList)

/-- The switch of Repo.Push (repo.go 164-183) classifying the combined
stdout+stderr of a failed porcelain push, in source order. -/
def classifyPush (out : String) : PushErr :=
  if containsSub out "fetch first" then .fetchFirst
  else if containsSub out "non-fast-forward" then .nonFastForward
  else if containsSub out "permission denied" || containsSub out "access denied" then
    .permissionDenied
  else if containsSub out "! [remote rejected]" || containsSub out "! [rejected]" then
    .rejected
  else if containsSub out "couldn\x27t find remote ref"
      || containsSub out "remote ref does not exist" then
    .remoteRefMissing
  else .generic

/-- Outcome of Repo.Push (repo.go 152-186). -/
inductive PushOutcome
| ok
| fetchFailed
| pushFailed (e : PushErr)
deriving DecidableEq, Repr

/-- Repo.Push (repo.go 152-186): first Fetch(remote); its failure is returned
wrapped. Then the porcelain push: pushCLI is none when the CLI succeeds, and
some (stdout, stderr) when it fails, in which case stdout ++ stderr is
classified. -/
def RepoPush (fetchOk : Bool) (pushCLI : Option (String × String)) : PushOutcome :=
  if !fetchOk then .fetchFailed
  else
    match pushCLI with
    | none => .ok
    | some (out, err) => .pushFailed (classifyPush (out ++ err))

/-- Oracle outcomes for the k-th iteration (k = 0, 1, 2) of the retry loop of
pushWithRetry: the push result, and the results of the fetch, defensive
rebase-abort and rebase that may run between attempts. -/
structure PushEnv where
  push : Nat → Option PushErr
  fetch : Nat → Bool
  abort : Nat → Bool
  rebase : Nat → Option RebaseErr

/-- const maxRetries = 2 (lock.go 204). -/
def maxRetries : Nat := 2

/-- The retry condition of lock.go 216: errors.Is NonFastForward or
errors.Is FetchFirst, in source order. -/
def retryable (e : PushErr) : Bool :=
  e == .nonFastForward || e == .fetchFirst

/-- The loop body of pushWithRetry (lock.go 207-249). retry is the loop
counter; budget is the number of retries remaining, i.e. maxRetries - retry,
so the source guard retry < maxRetries is budget being nonzero. The second
component counts push attempts made. A fetch or abort failure consumes the
iteration and continues (lock.go 219-228); a rebase failure is returned at
once after a best-effort abort (lock.go 232-241); any non-retryable push
error breaks with that error (lock.go 245-248). -/
def pushWithRetryGo (env : PushEnv) : (retry budget : Nat) → Option GitErr × Nat
  | retry, 0 =>
    match env.push retry with
    | none => (none, 1)
    | some pe => (some (.push pe), 1)
  | retry, b + 1 =>
    match env.push retry with
    | none => (none, 1)
    | some pe =>
      if retryable pe then
        if env.fetch retry = false then
          let r := pushWithRetryGo env (retry + 1) b
          (r.1, r.2 + 1)
        else if env.abort retry = false then
          let r := pushWithRetryGo env (retry + 1) b
          (r.1, r.2 + 1)
        else
          match env.rebase retry with
          | some re => (some (.rebase re), 1)
          | none =>
            let r := pushWithRetryGo env (retry + 1) b
            (r.1, r.2 + 1)
      else (some (.push pe), 1)

/-- pushWithRetry (lock.go 203-253): run the loop from retry = 0 with
maxRetries retries remaining; the error component of the result. -/
def pushWithRetry (env : PushEnv) : Option GitErr :=
  (pushWithRetryGo env 0 maxRetries).1

/-- Number of push attempts pushWithRetry makes against its oracle. -/
def pushAttempts (env : PushEnv) : Nat :=
  (pushWithRetryGo env 0 maxRetries).2

/-- Local state relevant to the lock protocol: the working-tree content of the
lock file, and its content at each local commit (head of history = HEAD).
Commit prepends the working-tree content; reset --hard HEAD~1 drops the head
commit and restores the working tree to the content at the new HEAD. -/
structure LocalState where
  workFile : FileState
  history : List FileState
deriving DecidableEq, Repr

/-- Errors AcquireLock can return (lock.go 43-132). lockConflict none is the
bare ErrLockConflict of lock.go 70; lockConflict (some e) wraps a push-stage
cause (lock.go 117, 120, 127). -/
inductive AcquireErr
| branchFailed
| pullFailed
| readFailed (e : ReadErr)
| lockConflict (cause : Option GitErr)
| mkdirFailed
| writeFailed
| commitFailed
| permissionDenied (cause : GitErr)
| remoteRefMissing (cause : GitErr)
deriving DecidableEq, Repr

/-- The switch mapping a pushWithRetry failure to a lock error
(lock.go 113-128): NonFastForward, Rejected, and RebaseMergeConflict map to
ErrLockConflict; PushPermissionDenied to a permission error;
PushRemoteRefMissing to a missing-remote-reference error; everything else
(FetchFirst, generic push failures, other rebase failures) to
ErrLockConflict. -/
def acquirePushErrMap (e : GitErr) : AcquireErr :=
  match e with
  | .push .nonFastForward => .lockConflict (some e)
  | .push .rejected => .lockConflict (some e)
  | .rebase .mergeConflict => .lockConflict (some e)
  | .push .permissionDenied => .permissionDenied e
  | .push .remoteRefMissing => .remoteRefMissing e
  | _ => .lockConflict (some e)

/-- The lock record AcquireLock builds (lock.go 80-85): owner is the session
LockKey, created_at is now(), expires_at is now() + expiryDuration. -/
def newLockRecord (lockKey : String) (now : Int) (expiryDuration : Int)
    (description : String) : Lock :=
  { owner := lockKey, createdAt := now, expiresAt := now + expiryDuration,
    description := description }

/-- Oracle outcomes for the external calls AcquireLock makes, plus the
session identity and injected clock. json.Marshal of a Lock cannot fail and
has no oracle. -/
structure AcquireEnv where
  lockKey : String
  now : Int
  currentBranchOk : Bool
  pullOk : Bool
  mkdirOk : Bool
  writeOk : Bool
  commitOk : Bool
  pushEnv : PushEnv

/-- AcquireLock (lock.go 43-132), state-passing on the lock file and local
commits. On commit failure the freshly written file is removed
(lock.go 100-102). On push failure the file is removed and the branch is
hard-reset to HEAD~1 (lock.go 110-111): the reset drops the lock commit and
restores the working tree to the content at the previous HEAD; the outcomes
of these best-effort cleanups are discarded in the source, and they are
modelled as taking effect. -/
def AcquireLock (env : AcquireEnv) (expiryDuration : Int) (description : String)
    (s : LocalState) : Except AcquireErr Unit × LocalState :=
  if !env.currentBranchOk then (.error .branchFailed, s)
  else if !env.pullOk then (.error .pullFailed, s)
  else
    match (ReadLock s.workFile env.now).1 with
    | .error e => (.error (.readFailed e), s)
    | .ok existingLock =>
      let ownsLock := OwnsLock existingLock env.lockKey
      if existingLock.isSome && !ownsLock then (.error (.lockConflict none), s)
      else if !env.mkdirOk then (.error .mkdirFailed, s)
      else
        let lock := newLockRecord env.lockKey env.now expiryDuration description
        if !env.writeOk then (.error .writeFailed, s)
        else
          let s1 : LocalState := { s with workFile := .valid lock }
          if !env.commitOk then (.error .commitFailed, { s1 with workFile := .absent })
          else
            let s2 : LocalState := { s1 with history := s1.workFile :: s1.history }
            match pushWithRetry env.pushEnv with
            | none => (.ok (), s2)
            | some ge =>
              let s3 : LocalState := { s2 with workFile := .absent }
              let s4 : LocalState :=
                { workFile := s3.history.tail.headD .absent,
                  history := s3.history.tail }
              (.error (acquirePushErrMap ge), s4)

/-- Errors ReleaseLock can return (lock.go 135-199). -/
inductive ReleaseErr
| branchFailed
| pullFailed
| readFailed (e : ReadErr)
| notOwned (owner : String)
| fetchFailed
| pull2Failed
| removeFailed
| commitFailed
| pushFailed (cause : GitErr)
deriving DecidableEq, Repr

/-- Outcome of ReleaseLock. nilPanic is the nil-pointer dereference of
lock.go 161: after OwnsLock reports false, the record is re-read and its
Owner field is taken without a nil check, so a run with no current record
panics instead of returning. -/
inductive ReleaseOutcome
| ok
| err (e : ReleaseErr)
| nilPanic
deriving DecidableEq, Repr

/-- Oracle outcomes for the external calls ReleaseLock makes. -/
structure ReleaseEnv where
  lockKey : String
  now : Int
  currentBranchOk : Bool
  pullOk : Bool
  fetchOk : Bool
  pull2Ok : Bool
  removeOk : Bool
  commitOk : Bool
  pushEnv : PushEnv

/-- ReleaseLock (lock.go 135-199), state-passing. The not-owned path re-reads
the record (lock.go 157) and reports its owner; with no current record this
is the nil dereference modelled as nilPanic. On push failure the branch is
hard-reset to HEAD~1 (lock.go 190), restoring the deleted file. -/
def ReleaseLock (env : ReleaseEnv) (s : LocalState) : ReleaseOutcome × LocalState :=
  if !env.currentBranchOk then (.err .branchFailed, s)
  else if !env.pullOk then (.err .pullFailed, s)
  else
    match (ReadLock s.workFile env.now).1 with
    | .error e => (.err (.readFailed e), s)
    | .ok lock =>
      let ownsLock := OwnsLock lock env.lockKey
      if !ownsLock then
        match (ReadLock s.workFile env.now).1 with
        | .error e => (.err (.readFailed e), s)
        | .ok none => (.nilPanic, s)
        | .ok (some l) => (.err (.notOwned l.owner), s)
      else if !env.fetchOk then (.err .fetchFailed, s)
      else if !env.pull2Ok then (.err .pull2Failed, s)
      else if !env.removeOk then (.err .removeFailed, s)
      else
        let s1 : LocalState := { s with workFile := .absent }
        if !env.commitOk then (.err .commitFailed, s1)
        else
          let s2 : LocalState := { s1 with history := s1.workFile :: s1.history }
          match pushWithRetry env.pushEnv with
          | none => (.ok, s2)
          | some ge =>
            let s3 : LocalState :=
              { workFile := s2.history.tail.headD .absent,
                history := s2.history.tail }
            (.err (.pushFailed ge), s3)

/-- Errors RefreshLock can return (lock.go 256-318). -/
inductive RefreshErr
| branchFailed
| readFailed (e : ReadErr)
| notOwned
| readOriginalFailed
| writeFailed
| commitFailed
| pushFailed (cause : GitErr)
deriving DecidableEq, Repr

/-- Oracle outcomes for the external calls RefreshLock makes. readFileOk is
the os.ReadFile of the original content (lock.go 280). -/
structure RefreshEnv where
  lockKey : String
  now : Int
  currentBranchOk : Bool
  readFileOk : Bool
  writeOk : Bool
  commitOk : Bool
  pushEnv : PushEnv

/-- RefreshLock (lock.go 256-318), state-passing. The record read through
ReadLock has its expires_at replaced (lock.go 287) and is rewritten. On push
failure the snapshot of the original content is restored and the branch is
hard-reset to HEAD~1 (lock.go 308-309). -/
def RefreshLock (env : RefreshEnv) (expirationTime : Int) (s : LocalState) :
    Except RefreshErr Unit × LocalState :=
  if !env.currentBranchOk then (.error .branchFailed, s)
  else
    match (ReadLock s.workFile env.now).1 with
    | .error e => (.error (.readFailed e), s)
    | .ok lockOpt =>
      if !(OwnsLock lockOpt env.lockKey) then (.error .notOwned, s)
      else
        match lockOpt with
        | none => (.error .notOwned, s)
        | some lock =>
          if !env.readFileOk then (.error .readOriginalFailed, s)
          else
            let original := s.workFile
            let lock2 : Lock := { lock with expiresAt := expirationTime }
            if !env.writeOk then (.error .writeFailed, s)
            else
              let s1 : LocalState := { s with workFile := .valid lock2 }
              if !env.commitOk then (.error .commitFailed, s1)
              else
                let s2 : LocalState := { s1 with history := s1.workFile :: s1.history }
                match pushWithRetry env.pushEnv with
                | none => (.ok (), s2)
                | some ge =>
                  let s3 : LocalState := { s2 with workFile := original }
                  let s4 : LocalState :=
                    { workFile := s3.history.tail.headD .absent,
                      history := s3.history.tail }
                  (.error (.pushFailed ge), s4)

/-!
Two-session contention model for AcquireLock against one shared remote.

Modelled from the spec for the parts outside this repository (the remote git
server, spec sections 4.2, 5 and scenario S5): the remote accepts a push only
as a fast-forward, i.e. only when the pushing session's base equals the
current remote tip; when the remote has advanced past a session's base, the
push is rejected as fetch-first or non-fast-forward, and rebasing the lock
commit onto the new tip conflicts because both sessions changed the same lock
file, so pushWithRetry surfaces fetch-first, non-fast-forward or a rebase
merge conflict. Environmental failures (permission, missing ref) are outside
the contention scenario and are not modelled.

The per-session protocol steps are those of AcquireLock (lock.go 43-132):
pull the remote state, run the ownership check of lock.go 56-71 via ReadLock
and OwnsLock, then commit locally and push. The remote is a tip counter plus
the lock file content at the tip.
-/

/-- Program counter of one session running AcquireLock in the contention
model. pulled records the remote tip and lock content the session saw at its
pull; committed records the base tip of its local lock commit. -/
inductive PC
| start
| pulled (base : Nat) (obs : Option Lock)
| committed (base : Nat)
| success
| failed (e : AcquireErr)
deriving DecidableEq, Repr

/-- A configuration of the two-session race: the remote tip counter, the lock
file content at the remote tip, and both session states. -/
structure C1Config where
  tip : Nat
  content : Option Lock
  pcA : PC
  pcB : PC
deriving DecidableEq, Repr

/-- The remote lock file content as a FileState for ReadLock. -/
def fileOf : Option Lock → FileState
  | none => .absent
  | some l => .valid l

/-- The pushWithRetry outcomes contention can produce (spec 4.2, S5): the
final fetch-first or non-fast-forward push rejection, or the rebase merge
conflict on the shared lock file. -/
def contentionErr (e : GitErr) : Prop :=
  e = .push .fetchFirst ∨ e = .push .nonFastForward ∨ e = .rebase .mergeConflict

/-- Interleaving semantics of two sessions A and B, with distinct lock keys
kA and kB, both running AcquireLock with ttl and descriptions dA, dB at a
common instant now. Each constructor is one atomic protocol step of one
session; check steps evaluate lock.go 56-71 on the observed content. -/
inductive C1Step (kA kB : String) (ttl : Int) (dA dB : String) (now : Int) :
    C1Config → C1Config → Prop
| pullA (t : Nat) (c : Option Lock) (pb : PC) :
    C1Step kA kB ttl dA dB now ⟨t, c, .start, pb⟩ ⟨t, c, .pulled t c, pb⟩
| checkRejectA (t : Nat) (c : Option Lock) (b : Nat) (o : Option Lock) (pb : PC)
    (ex : Option Lock) :
    (ReadLock (fileOf o) now).1 = .ok ex →
    (ex.isSome && !(OwnsLock ex kA)) = true →
    C1Step kA kB ttl dA dB now ⟨t, c, .pulled b o, pb⟩
      ⟨t, c, .failed (.lockConflict none), pb⟩
| checkPassA (t : Nat) (c : Option Lock) (b : Nat) (o : Option Lock) (pb : PC)
    (ex : Option Lock) :
    (ReadLock (fileOf o) now).1 = .ok ex →
    (ex.isSome && !(OwnsLock ex kA)) = false →
    C1Step kA kB ttl dA dB now ⟨t, c, .pulled b o, pb⟩ ⟨t, c, .committed b, pb⟩
| pushOkA (t : Nat) (c : Option Lock) (pb : PC) :
    C1Step kA kB ttl dA dB now ⟨t, c, .committed t, pb⟩
      ⟨t + 1, some (newLockRecord kA now ttl dA), .success, pb⟩
| pushFailA (t : Nat) (c : Option Lock) (b : Nat) (pb : PC) (e : GitErr) :
    contentionErr e →
    C1Step kA kB ttl dA dB now ⟨t, c, .committed b, pb⟩
      ⟨t, c, .failed (acquirePushErrMap e), pb⟩
| pullB (t : Nat) (c : Option Lock) (pa : PC) :
    C1Step kA kB ttl dA dB now ⟨t, c, pa, .start⟩ ⟨t, c, pa, .pulled t c⟩
| checkRejectB (t : Nat) (c : Option Lock) (b : Nat) (o : Option Lock) (pa : PC)
    (ex : Option Lock) :
    (ReadLock (fileOf o) now).1 = .ok ex →
    (ex.isSome && !(OwnsLock ex kB)) = true →
    C1Step kA kB ttl dA dB now ⟨t, c, pa, .pulled b o⟩
      ⟨t, c, pa, .failed (.lockConflict none)⟩
| checkPassB (t : Nat) (c : Option Lock) (b : Nat) (o : Option Lock) (pa : PC)
    (ex : Option Lock) :
    (ReadLock (fileOf o) now).1 = .ok ex →
    (ex.isSome && !(OwnsLock ex kB)) = false →
    C1Step kA kB ttl dA dB now ⟨t, c, pa, .pulled b o⟩ ⟨t, c, pa, .committed b⟩
| pushOkB (t : Nat) (c : Option Lock) (pa : PC) :
    C1Step kA kB ttl dA dB now ⟨t, c, pa, .committed t⟩
      ⟨t + 1, some (newLockRecord kB now ttl dB), pa, .success⟩
| pushFailB (t : Nat) (c : Option Lock) (b : Nat) (pa : PC) (e : GitErr) :
    contentionErr e →
    C1Step kA kB ttl dA dB now ⟨t, c, pa, .committed b⟩
      ⟨t, c, pa, .failed (acquirePushErrMap e)⟩

/-- Initial configuration: no lock at the remote, both sessions about to run
AcquireLock. -/
def c1Init (t0 : Nat) : C1Config := ⟨t0, none, .start, .start⟩

/-- Configurations reachable by interleaving the two sessions. -/
inductive C1Reach (kA kB : String) (ttl : Int) (dA dB : String) (now : Int)
    (t0 : Nat) : C1Config → Prop
| init : C1Reach kA kB ttl dA dB now t0 (c1Init t0)
| step {c c' : C1Config} : C1Reach kA kB ttl dA dB now t0 c →
    C1Step kA kB ttl dA dB now c c' → C1Reach kA kB ttl dA dB now t0 c'

/-- Session bases never exceed the remote tip. -/
def baseLe : PC → Nat → Prop
  | .pulled b _, t => b ≤ t
  | .committed b, t => b ≤ t
  | _, _ => True

/-- After a session has succeeded with record li at tip t, the other session
can no longer push: it is either not yet committed, committed on a stale
base, bound to observe li, or already finished without success. -/
def blocked (li : Lock) (t : Nat) : PC → Prop
  | .start => True
  | .pulled b o => b < t ∨ o = some li
  | .committed b => b < t
  | .success => False
  | .failed _ => True

/-- The error is ErrLockConflict, possibly wrapping a cause. -/
def isLockConflict : AcquireErr → Prop
  | .lockConflict _ => True
  | _ => False

/-- Inductive invariant of the contention model. -/
def C1Inv (lA lB : Lock) (cfg : C1Config) : Prop :=
  baseLe cfg.pcA cfg.tip ∧ baseLe cfg.pcB cfg.tip ∧
  (cfg.pcA = .success → cfg.content = some lA ∧ blocked lA cfg.tip cfg.pcB) ∧
  (cfg.pcB = .success → cfg.content = some lB ∧ blocked lB cfg.tip cfg.pcA) ∧
  (∀ e, cfg.pcA = .failed e → isLockConflict e) ∧
  (∀ e, cfg.pcB = .failed e → isLockConflict e)

lemma contention_lockConflict (e : GitErr) (h : contentionErr e) :
    isLockConflict (acquirePushErrMap e) := by
  rcases h with h | h | h <;> subst h <;> simp [acquirePushErrMap, isLockConflict]

lemma baseLe_succ (pc : PC) (t : Nat) (h : baseLe pc t) : baseLe pc (t + 1) := by
  cases pc <;> simp only [baseLe] at h ⊢ <;> omega

lemma blocked_of_baseLe (li : Lock) (pc : PC) (t : Nat) (h : baseLe pc t)
    (hns : pc ≠ .success) : blocked li (t + 1) pc := by
  cases pc with
  | start => trivial
  | pulled b o =>
    simp only [baseLe] at h
    exact Or.inl (by omega)
  | committed b =>
    simp only [baseLe] at h
    simp only [blocked]
    omega
  | success => exact absurd rfl hns
  | failed e => trivial

/-- The ownership check of lock.go 56-71 cannot pass for a session whose key
differs from the owner of a fresh, unexpired record it observed. -/
lemma check_blocked (kX kY : String) (ttl : Int) (dX : String) (now : Int)
    (hk : kX ≠ kY) (httl : 0 < ttl) (ex : Option Lock)
    (hex : (ReadLock (fileOf (some (newLockRecord kX now ttl dX))) now).1 = .ok ex)
    (hcond : (ex.isSome && !(OwnsLock ex kY)) = false) : False := by
  have hnot : ¬ (now > (newLockRecord kX now ttl dX).expiresAt) := by
    simp only [newLockRecord]
    omega
  simp only [ReadLock, fileOf, if_neg hnot, Except.ok.injEq] at hex
  subst hex
  simp only [Option.isSome_some, OwnsLock, newLockRecord, Bool.true_and,
    Bool.not_eq_false', beq_iff_eq] at hcond
  exact hk hcond

lemma c1Inv_preserved (kA kB : String) (ttl : Int) (dA dB : String) (now : Int)
    (hk : kA ≠ kB) (httl : 0 < ttl) {c c' : C1Config}
    (hstep : C1Step kA kB ttl dA dB now c c')
    (hinv : C1Inv (newLockRecord kA now ttl dA) (newLockRecord kB now ttl dB) c) :
    C1Inv (newLockRecord kA now ttl dA) (newLockRecord kB now ttl dB) c' := by
  obtain ⟨h1, h2, h3, h4, h5, h6⟩ := hinv
  cases hstep with
  | pullA t c pb =>
    refine ⟨Nat.le_refl t, h2, by simp, ?_, by simp, h6⟩
    intro hpb
    obtain ⟨hc, _⟩ := h4 hpb
    exact ⟨hc, Or.inr hc⟩
  | checkRejectA t c b o pb ex hex hcond =>
    refine ⟨trivial, h2, by simp, ?_, ?_, h6⟩
    · intro hpb
      exact ⟨(h4 hpb).1, trivial⟩
    · intro e he
      injection he with h
      subst h
      trivial
  | checkPassA t c b o pb ex hex hcond =>
    refine ⟨h1, h2, by simp, ?_, by simp, h6⟩
    intro hpb
    obtain ⟨hc, hb⟩ := h4 hpb
    refine ⟨hc, ?_⟩
    rcases hb with hb | hb
    · exact hb
    · subst hb
      exact absurd (check_blocked kB kA ttl dB now (Ne.symm hk) httl ex hex hcond) id
  | pushOkA t c pb =>
    have hnpb : pb ≠ .success := by
      intro hpb
      exact Nat.lt_irrefl t (h4 hpb).2
    refine ⟨trivial, baseLe_succ pb t h2, ?_, ?_, by simp, h6⟩
    · intro _
      exact ⟨rfl, blocked_of_baseLe _ pb t h2 hnpb⟩
    · intro hpb
      exact absurd hpb hnpb
  | pushFailA t c b pb e hce =>
    refine ⟨trivial, h2, by simp, ?_, ?_, h6⟩
    · intro hpb
      exact ⟨(h4 hpb).1, trivial⟩
    · intro e' he
      injection he with h
      subst h
      exact contention_lockConflict e hce
  | pullB t c pa =>
    refine ⟨h1, Nat.le_refl t, ?_, by simp, h5, by simp⟩
    intro hpa
    obtain ⟨hc, _⟩ := h3 hpa
    exact ⟨hc, Or.inr hc⟩
  | checkRejectB t c b o pa ex hex hcond =>
    refine ⟨h1, trivial, ?_, by simp, h5, ?_⟩
    · intro hpa
      exact ⟨(h3 hpa).1, trivial⟩
    · intro e he
      injection he with h
      subst h
      trivial
  | checkPassB t c b o pa ex hex hcond =>
    refine ⟨h1, h2, ?_, by simp, h5, by simp⟩
    intro hpa
    obtain ⟨hc, hb⟩ := h3 hpa
    refine ⟨hc, ?_⟩
    rcases hb with hb | hb
    · exact hb
    · subst hb
      exact absurd (check_blocked kA kB ttl dA now hk httl ex hex hcond) id
  | pushOkB t c pa =>
    have hnpa : pa ≠ .success := by
      intro hpa
      exact Nat.lt_irrefl t (h3 hpa).2
    refine ⟨baseLe_succ pa t h1, trivial, ?_, ?_, h5, by simp⟩
    · intro hpa
      exact absurd hpa hnpa
    · intro _
      exact ⟨rfl, blocked_of_baseLe _ pa t h1 hnpa⟩
  | pushFailB t c b pa e hce =>
    refine ⟨h1, trivial, ?_, by simp, h5, ?_⟩
    · intro hpa
      exact ⟨(h3 hpa).1, trivial⟩
    · intro e' he
      injection he with h
      subst h
      exact contention_lockConflict e hce

lemma c1Inv_reach (kA kB : String) (ttl : Int) (dA dB : String) (now : Int)
    (t0 : Nat) (hk : kA ≠ kB) (httl : 0 < ttl) {cfg : C1Config}
    (hr : C1Reach kA kB ttl dA dB now t0 cfg) :
    C1Inv (newLockRecord kA now ttl dA) (newLockRecord kB now ttl dB) cfg := by
  induction hr with
  | init => exact ⟨trivial, trivial, by simp [c1Init], by simp [c1Init],
      by simp [c1Init], by simp [c1Init]⟩
  | step _ hs ih => exact c1Inv_preserved kA kB ttl dA dB now hk httl hs ih

/-- C1: in the two-session contention model of AcquireLock over one shared
remote, for any two sessions with distinct lock keys, a positive ttl, and any
interleaving, at most one session reaches success, and every session that
fails does so with an ErrLockConflict outcome (the failed arms carry exactly
the bare conflict of lock.go 70 or a conflict-mapped push failure of
lock.go 113-128). In this model the remote lock path holds a single record,
so at most one record, the winner's, exists at the remote tip. -/
theorem c1_acquire_mutual_exclusion (kA kB dA dB : String) (now ttl : Int)
    (t0 : Nat) (hk : kA ≠ kB) (httl : 0 < ttl) (cfg : C1Config)
    (hr : C1Reach kA kB ttl dA dB now t0 cfg) :
    ¬(cfg.pcA = .success ∧ cfg.pcB = .success) ∧
    (∀ e, cfg.pcA = .failed e → isLockConflict e) ∧
    (∀ e, cfg.pcB = .failed e → isLockConflict e) := by
  obtain ⟨_, _, h3, _, h5, h6⟩ := c1Inv_reach kA kB ttl dA dB now t0 hk httl hr
  refine ⟨?_, h5, h6⟩
  rintro ⟨ha, hb⟩
  have hblocked := (h3 ha).2
  rw [hb] at hblocked
  exact hblocked

/-- Witness for C1 at concrete inputs. -/
theorem c1_acquire_mutual_exclusion_witness :
    ¬((c1Init 0).pcA = .success ∧ (c1Init 0).pcB = .success) ∧
    (∀ e, (c1Init 0).pcA = .failed e → isLockConflict e) ∧
    (∀ e, (c1Init 0).pcB = .failed e → isLockConflict e) :=
  c1_acquire_mutual_exclusion "a" "b" "da" "db" 0 1 0 (by decide) (by decide)
    (c1Init 0) C1Reach.init

lemma pushGo_count_le (env : PushEnv) :
    ∀ (budget retry : Nat), (pushWithRetryGo env retry budget).2 ≤ budget + 1 := by
  intro budget
  induction budget with
  | zero =>
    intro retry
    unfold pushWithRetryGo
    cases env.push retry <;> simp
  | succ b ih =>
    intro retry
    have hrec := ih (retry + 1)
    unfold pushWithRetryGo
    cases hp : env.push retry with
    | none => simp
    | some pe =>
      cases hr : retryable pe with
      | false => simp [hr]
      | true =>
        cases hfv : env.fetch retry with
        | false =>
          simp [hr, hfv]
          omega
        | true =>
          cases hav : env.abort retry with
          | false =>
            simp [hr, hfv, hav]
            omega
          | true =>
            cases hrb : env.rebase retry with
            | some re => simp [hr, hfv, hav, hrb]
            | none =>
              simp [hr, hfv, hav, hrb]
              omega

/-- C4: pushWithRetry makes at most maxRetries + 1 = 3 push attempts; a
first-attempt push failure that is neither FetchFirst nor NonFastForward is
returned at once after a single attempt; a retryable failure followed by a
successful fetch and abort but a failing rebase returns that rebase failure
at once with no further push attempt; a retryable failure with fetch,
abort and rebase all succeeding proceeds to the next attempt; and with no
retries remaining any push failure is returned at once. -/
theorem c4_pushWithRetry_retry_policy (env : PushEnv) :
    pushAttempts env ≤ maxRetries + 1 ∧
    (∀ pe, env.push 0 = some pe → retryable pe = false →
      pushWithRetry env = some (.push pe) ∧ pushAttempts env = 1) ∧
    (∀ pe re, env.push 0 = some pe → retryable pe = true →
      env.fetch 0 = true → env.abort 0 = true → env.rebase 0 = some re →
      pushWithRetry env = some (.rebase re) ∧ pushAttempts env = 1) ∧
    (∀ pe, env.push 0 = some pe → retryable pe = true →
      env.fetch 0 = true → env.abort 0 = true → env.rebase 0 = none →
      pushWithRetry env = (pushWithRetryGo env 1 (maxRetries - 1)).1 ∧
      pushAttempts env = (pushWithRetryGo env 1 (maxRetries - 1)).2 + 1) ∧
    (∀ pe r, env.push r = some pe →
      pushWithRetryGo env r 0 = (some (.push pe), 1)) := by
  refine ⟨pushGo_count_le env maxRetries 0, ?_, ?_, ?_, ?_⟩
  · intro pe hp hr
    constructor <;>
      simp [pushWithRetry, pushAttempts, pushWithRetryGo, maxRetries, hp, hr]
  · intro pe re hp hr hf ha hrb
    constructor <;>
      simp [pushWithRetry, pushAttempts, pushWithRetryGo, maxRetries, hp, hr, hf, ha, hrb]
  · intro pe hp hr hf ha hrb
    constructor <;>
      simp [pushWithRetry, pushAttempts, pushWithRetryGo, maxRetries, hp, hr, hf, ha, hrb]
  · intro pe r hp
    simp [pushWithRetryGo, hp]

/-- C2: AcquireLock fails with the bare ErrLockConflict, touching nothing,
when ReadLock reports a record of another owner; and when the record at the
path is expired, or is owned by this session, the acquisition proceeds and
overwrites the record (shown on runs where the remaining steps succeed). -/
theorem c2_acquire_check (env : AcquireEnv) (expiry : Int) (d : String)
    (s : LocalState) (l : Lock) :
    ((ReadLock s.workFile env.now).1 = .ok (some l) → l.owner ≠ env.lockKey →
      env.currentBranchOk = true → env.pullOk = true →
      AcquireLock env expiry d s = (.error (.lockConflict none), s)) ∧
    (s.workFile = .valid l → env.now > l.expiresAt →
      env.currentBranchOk = true → env.pullOk = true → env.mkdirOk = true →
      env.writeOk = true → env.commitOk = true → pushWithRetry env.pushEnv = none →
      AcquireLock env expiry d s =
        (.ok (), { workFile := .valid (newLockRecord env.lockKey env.now expiry d),
                   history := .valid (newLockRecord env.lockKey env.now expiry d)
                     :: s.history })) ∧
    (s.workFile = .valid l → l.owner = env.lockKey → ¬ env.now > l.expiresAt →
      env.currentBranchOk = true → env.pullOk = true → env.mkdirOk = true →
      env.writeOk = true → env.commitOk = true → pushWithRetry env.pushEnv = none →
      AcquireLock env expiry d s =
        (.ok (), { workFile := .valid (newLockRecord env.lockKey env.now expiry d),
                   history := .valid (newLockRecord env.lockKey env.now expiry d)
                     :: s.history })) := by
  refine ⟨?_, ?_, ?_⟩
  · intro hrl hown hbr hpull
    simp [AcquireLock, hbr, hpull, hrl, OwnsLock, hown]
  · intro hfile hexp hbr hpull hmk hw hcm hpush
    simp [AcquireLock, hbr, hpull, hfile, ReadLock, hexp, hmk, hw, hcm, hpush]
  · intro hfile hown hexp hbr hpull hmk hw hcm hpush
    simp [AcquireLock, hbr, hpull, hfile, ReadLock, hexp, OwnsLock, hown, hmk, hw,
      hcm, hpush]

/-- C3: when AcquireLock has written and committed the lock file and the push
then fails, the lock file is removed and the branch is hard-reset to HEAD~1,
so the local state equals the pre-call state (the working tree was clean at
entry); the returned error is the push failure mapped by lock.go 113-128:
ErrLockConflict wrapping the cause for FetchFirst, NonFastForward, Rejected,
MergeConflict and generic failures, a permission error for PermissionDenied,
and a missing-remote-reference error for RemoteRefMissing. -/
theorem c3_acquire_push_rollback (env : AcquireEnv) (expiry : Int) (d : String)
    (s : LocalState) (ex : Option Lock) (ge : GitErr)
    (hbr : env.currentBranchOk = true) (hpull : env.pullOk = true)
    (hrl : (ReadLock s.workFile env.now).1 = .ok ex)
    (hpass : (ex.isSome && !(OwnsLock ex env.lockKey)) = false)
    (hmk : env.mkdirOk = true) (hw : env.writeOk = true)
    (hcm : env.commitOk = true) (hpush : pushWithRetry env.pushEnv = some ge)
    (hclean : s.history.headD .absent = s.workFile) :
    AcquireLock env expiry d s = (.error (acquirePushErrMap ge), s) ∧
    acquirePushErrMap (.push .fetchFirst)
      = .lockConflict (some (.push .fetchFirst)) ∧
    acquirePushErrMap (.push .nonFastForward)
      = .lockConflict (some (.push .nonFastForward)) ∧
    acquirePushErrMap (.push .rejected) = .lockConflict (some (.push .rejected)) ∧
    acquirePushErrMap (.rebase .mergeConflict)
      = .lockConflict (some (.rebase .mergeConflict)) ∧
    acquirePushErrMap (.push .generic) = .lockConflict (some (.push .generic)) ∧
    acquirePushErrMap (.push .permissionDenied)
      = .permissionDenied (.push .permissionDenied) ∧
    acquirePushErrMap (.push .remoteRefMissing)
      = .remoteRefMissing (.push .remoteRefMissing) := by
  refine ⟨?_, rfl, rfl, rfl, rfl, rfl, rfl, rfl⟩
  have hfinal : (⟨s.history.head?.getD .absent, s.history⟩ : LocalState) = s := by
    rw [← List.headD_eq_head?, hclean]
  simp [AcquireLock, hbr, hpull, hrl, hpass, hmk, hw, hcm, hpush, hfinal]

/-- C5: ReadLock returns no lock for an absent file; the parsed record when
the file parses and now() is not after expires_at; no lock when the parsed
record is expired; and a wrapped parse failure when the file does not
parse. -/
theorem c5_readLock_cases (now : Int) (l : Lock) :
    (ReadLock .absent now).1 = .ok none ∧
    (¬ now > l.expiresAt → (ReadLock (.valid l) now).1 = .ok (some l)) ∧
    (now > l.expiresAt → (ReadLock (.valid l) now).1 = .ok none) ∧
    (ReadLock .invalid now).1 = .error .parseFailed := by
  refine ⟨rfl, ?_, ?_, rfl⟩
  · intro h
    simp [ReadLock, h]
  · intro h
    simp [ReadLock, h]

/-- Witness for C5 at concrete inputs. -/
theorem c5_readLock_cases_witness :
    (ReadLock .absent 0).1 = .ok none ∧
    (ReadLock (.valid ⟨"me", 0, 10, "d"⟩) 5).1 = .ok (some ⟨"me", 0, 10, "d"⟩) ∧
    (ReadLock (.valid ⟨"me", 0, 10, "d"⟩) 11).1 = .ok none ∧
    (ReadLock .invalid 0).1 = .error .parseFailed :=
  ⟨(c5_readLock_cases 0 ⟨"me", 0, 10, "d"⟩).1,
   (c5_readLock_cases 5 ⟨"me", 0, 10, "d"⟩).2.1 (by decide),
   (c5_readLock_cases 11 ⟨"me", 0, 10, "d"⟩).2.2.1 (by decide),
   (c5_readLock_cases 0 ⟨"me", 0, 10, "d"⟩).2.2.2⟩

/-- C8: ReadLock is a pure function of the file state and the injected
clock: it leaves the file untouched, a second call on the resulting state
returns the same result, and advancing the clock past expires_at yields no
lock while still not changing the file. -/
theorem c8_readLock_pure (f : FileState) (now : Int) (l : Lock) :
    (ReadLock f now).2 = f ∧
    ReadLock (ReadLock f now).2 now = ReadLock f now ∧
    (now > l.expiresAt →
      (ReadLock (.valid l) now).1 = .ok none ∧
      (ReadLock (.valid l) now).2 = .valid l) := by
  have hsnd : (ReadLock f now).2 = f := by
    cases f with
    | absent => rfl
    | unreadable => rfl
    | invalid => rfl
    | valid l' =>
      by_cases h : now > l'.expiresAt <;> simp [ReadLock, h]
  refine ⟨hsnd, by rw [hsnd], ?_⟩
  intro h
  constructor <;> simp [ReadLock, h]

/-- Witness for C8 at concrete inputs. -/
theorem c8_readLock_pure_witness :
    (ReadLock (.valid ⟨"me", 0, 10, "d"⟩) 11).2 = .valid ⟨"me", 0, 10, "d"⟩ ∧
    (ReadLock (.valid ⟨"me", 0, 10, "d"⟩) 11).1 = .ok none :=
  ⟨(c8_readLock_pure (.valid ⟨"me", 0, 10, "d"⟩) 11 ⟨"me", 0, 10, "d"⟩).1,
   ((c8_readLock_pure (.valid ⟨"me", 0, 10, "d"⟩) 11 ⟨"me", 0, 10, "d"⟩).2.2
     (by decide)).1⟩

/-- C7: a successful RefreshLock on an owned, unexpired record replaces the
stored record by one that differs only in expires_at, which becomes the new
expiry; owner, created_at and description are unchanged. -/
theorem c7_refresh_frame (env : RefreshEnv) (newExp : Int) (s : LocalState)
    (l : Lock) (hfile : s.workFile = .valid l) (hown : l.owner = env.lockKey)
    (hexp : ¬ env.now > l.expiresAt) (hbr : env.currentBranchOk = true)
    (hrf : env.readFileOk = true) (hw : env.writeOk = true)
    (hcm : env.commitOk = true) (hpush : pushWithRetry env.pushEnv = none) :
    RefreshLock env newExp s =
      (.ok (), { workFile := .valid ⟨l.owner, l.createdAt, newExp, l.description⟩,
                 history := .valid ⟨l.owner, l.createdAt, newExp, l.description⟩
                   :: s.history }) := by
  simp [RefreshLock, hbr, hfile, ReadLock, hexp, OwnsLock, hown, hrf, hw, hcm, hpush]

/-- C10: RefreshLock on a record that this session owns but that has expired
fails with the not-owned error and changes nothing: the expired record is
invisible through ReadLock, so OwnsLock reports false and the call returns
before any write, commit or push. -/
theorem c10_refresh_expired_not_owned (env : RefreshEnv) (newExp : Int)
    (s : LocalState) (l : Lock) (hfile : s.workFile = .valid l)
    (_hown : l.owner = env.lockKey) (hexp : env.now > l.expiresAt)
    (hbr : env.currentBranchOk = true) :
    RefreshLock env newExp s = (.error .notOwned, s) := by
  simp [RefreshLock, hbr, hfile, ReadLock, hexp, OwnsLock]

/-- A push oracle on which every push succeeds at once. -/
def pushEnvOk : PushEnv :=
  { push := fun _ => none, fetch := fun _ => true, abort := fun _ => true,
    rebase := fun _ => none }

/-- C6 (failing run): ReleaseLock called with no current record reaches the
re-read of lock.go 157 with a nil record and dereferences its Owner field
(lock.go 161), a nil-pointer panic, instead of returning the NotOwned
failure. -/
theorem c6_release_nil_owner_panic :
    ReleaseLock ⟨"me", 0, true, true, true, true, true, true, pushEnvOk⟩
      ⟨.absent, [.absent]⟩ = (.nilPanic, ⟨.absent, [.absent]⟩) := rfl

/-- C9: Repo.Push first fetches and surfaces a fetch failure; a successful
porcelain push returns no error; a failed one classifies stdout ++ stderr by
case-sensitive substring in source order: fetch first, non-fast-forward,
permission denied or access denied, remote rejected or rejected, missing
remote ref, else generic. -/
theorem c9_push_classification :
    (∀ p, RepoPush false p = .fetchFailed) ∧
    RepoPush true none = .ok ∧
    (∀ out err, RepoPush true (some (out, err))
      = .pushFailed (classifyPush (out ++ err))) ∧
    (∀ s, containsSub s "fetch first" = true → classifyPush s = .fetchFirst) ∧
    (∀ s, containsSub s "fetch first" = false →
      containsSub s "non-fast-forward" = true →
      classifyPush s = .nonFastForward) ∧
    (∀ s, containsSub s "fetch first" = false →
      containsSub s "non-fast-forward" = false →
      (containsSub s "permission denied" || containsSub s "access denied") = true →
      classifyPush s = .permissionDenied) ∧
    (∀ s, containsSub s "fetch first" = false →
      containsSub s "non-fast-forward" = false →
      (containsSub s "permission denied" || containsSub s "access denied") = false →
      (containsSub s "! [remote rejected]" || containsSub s "! [rejected]") = true →
      classifyPush s = .rejected) ∧
    (∀ s, containsSub s "fetch first" = false →
      containsSub s "non-fast-forward" = false →
      (containsSub s "permission denied" || containsSub s "access denied") = false →
      (containsSub s "! [remote rejected]" || containsSub s "! [rejected]") = false →
      (containsSub s "couldn\x27t find remote ref"
        || containsSub s "remote ref does not exist") = true →
      classifyPush s = .remoteRefMissing) ∧
    (∀ s, containsSub s "fetch first" = false →
      containsSub s "non-fast-forward" = false →
      (containsSub s "permission denied" || containsSub s "access denied") = false →
      (containsSub s "! [remote rejected]" || containsSub s "! [rejected]") = false →
      (containsSub s "couldn\x27t find remote ref"
        || containsSub s "remote ref does not exist") = false →
      classifyPush s = .generic) := by
  refine ⟨fun p => rfl, rfl, fun out err => rfl, ?_, ?_, ?_, ?_, ?_, ?_⟩ <;>
    intro s <;> intros <;> simp [classifyPush, *]

/-- An AcquireLock environment in which every external operation succeeds. -/
def acqEnvOk : AcquireEnv :=
  { lockKey := "me", now := 0, currentBranchOk := true, pullOk := true,
    mkdirOk := true, writeOk := true, commitOk := true, pushEnv := pushEnvOk }

/-- A push oracle on which every push is rejected outright. -/
def pushEnvRejected : PushEnv :=
  { push := fun _ => some .rejected, fetch := fun _ => true,
    abort := fun _ => true, rebase := fun _ => none }

/-- A push oracle: every push is non-fast-forward and the rebase between
attempts hits a merge conflict. -/
def pushEnvRebaseConflict : PushEnv :=
  { push := fun _ => some .nonFastForward, fetch := fun _ => true,
    abort := fun _ => true, rebase := fun _ => some .mergeConflict }

/-- A push oracle: every push is non-fast-forward and every rebase
succeeds. -/
def pushEnvNFF : PushEnv :=
  { push := fun _ => some .nonFastForward, fetch := fun _ => true,
    abort := fun _ => true, rebase := fun _ => none }

/-- Witness for C2 at concrete inputs: a foreign unexpired record conflicts;
an expired foreign record and an owned record are overwritten. -/
theorem c2_acquire_check_witness :
    AcquireLock acqEnvOk 10 "w"
        ⟨.valid ⟨"other", -5, 10, "d"⟩, [.valid ⟨"other", -5, 10, "d"⟩]⟩
      = (.error (.lockConflict none),
         ⟨.valid ⟨"other", -5, 10, "d"⟩, [.valid ⟨"other", -5, 10, "d"⟩]⟩) ∧
    AcquireLock acqEnvOk 10 "w"
        ⟨.valid ⟨"other", -9, -1, "d"⟩, [.valid ⟨"other", -9, -1, "d"⟩]⟩
      = (.ok (), { workFile := .valid (newLockRecord "me" 0 10 "w"),
                   history := [.valid (newLockRecord "me" 0 10 "w"),
                               .valid ⟨"other", -9, -1, "d"⟩] }) ∧
    AcquireLock acqEnvOk 10 "w"
        ⟨.valid ⟨"me", -5, 10, "d"⟩, [.valid ⟨"me", -5, 10, "d"⟩]⟩
      = (.ok (), { workFile := .valid (newLockRecord "me" 0 10 "w"),
                   history := [.valid (newLockRecord "me" 0 10 "w"),
                               .valid ⟨"me", -5, 10, "d"⟩] }) :=
  ⟨(c2_acquire_check acqEnvOk 10 "w" _ ⟨"other", -5, 10, "d"⟩).1 rfl
      (by decide) rfl rfl,
   (c2_acquire_check acqEnvOk 10 "w" _ ⟨"other", -9, -1, "d"⟩).2.1 rfl
      (by decide) rfl rfl rfl rfl rfl (by decide),
   (c2_acquire_check acqEnvOk 10 "w" _ ⟨"me", -5, 10, "d"⟩).2.2 rfl rfl
      (by decide) rfl rfl rfl rfl rfl (by decide)⟩

/-- Witness for C3 at concrete inputs: a rejected push rolls the state back
and surfaces ErrLockConflict wrapping the rejection. -/
theorem c3_acquire_push_rollback_witness :
    AcquireLock { acqEnvOk with pushEnv := pushEnvRejected } 10 "w"
        ⟨.absent, [.absent]⟩
      = (.error (acquirePushErrMap (.push .rejected)), ⟨.absent, [.absent]⟩) ∧
    acquirePushErrMap (.push .fetchFirst)
      = .lockConflict (some (.push .fetchFirst)) ∧
    acquirePushErrMap (.push .nonFastForward)
      = .lockConflict (some (.push .nonFastForward)) ∧
    acquirePushErrMap (.push .rejected) = .lockConflict (some (.push .rejected)) ∧
    acquirePushErrMap (.rebase .mergeConflict)
      = .lockConflict (some (.rebase .mergeConflict)) ∧
    acquirePushErrMap (.push .generic) = .lockConflict (some (.push .generic)) ∧
    acquirePushErrMap (.push .permissionDenied)
      = .permissionDenied (.push .permissionDenied) ∧
    acquirePushErrMap (.push .remoteRefMissing)
      = .remoteRefMissing (.push .remoteRefMissing) :=
  c3_acquire_push_rollback { acqEnvOk with pushEnv := pushEnvRejected } 10 "w"
    ⟨.absent, [.absent]⟩ none (.push .rejected) rfl rfl rfl rfl rfl rfl rfl
    (by decide) rfl

/-- Witness for C4 at concrete oracles: the attempt bound, the immediate
return on a non-retryable rejection, the immediate return of a rebase merge
conflict, and the continuation after a clean rebase. -/
theorem c4_pushWithRetry_retry_policy_witness :
    pushAttempts pushEnvNFF ≤ maxRetries + 1 ∧
    (pushWithRetry pushEnvRejected = some (.push .rejected) ∧
      pushAttempts pushEnvRejected = 1) ∧
    (pushWithRetry pushEnvRebaseConflict = some (.rebase .mergeConflict) ∧
      pushAttempts pushEnvRebaseConflict = 1) ∧
    (pushWithRetry pushEnvNFF = (pushWithRetryGo pushEnvNFF 1 (maxRetries - 1)).1 ∧
      pushAttempts pushEnvNFF = (pushWithRetryGo pushEnvNFF 1 (maxRetries - 1)).2 + 1) :=
  ⟨(c4_pushWithRetry_retry_policy pushEnvNFF).1,
   (c4_pushWithRetry_retry_policy pushEnvRejected).2.1 .rejected rfl rfl,
   (c4_pushWithRetry_retry_policy pushEnvRebaseConflict).2.2.1 .nonFastForward
     .mergeConflict rfl rfl rfl rfl rfl,
   (c4_pushWithRetry_retry_policy pushEnvNFF).2.2.2.1 .nonFastForward rfl rfl rfl
     rfl rfl⟩

/-- A RefreshLock environment in which every external operation succeeds. -/
def refEnvOk : RefreshEnv :=
  { lockKey := "me", now := 0, currentBranchOk := true, readFileOk := true,
    writeOk := true, commitOk := true, pushEnv := pushEnvOk }

/-- Witness for C7 at concrete inputs. -/
theorem c7_refresh_frame_witness :
    RefreshLock refEnvOk 30
        ⟨.valid ⟨"me", -5, 10, "d"⟩, [.valid ⟨"me", -5, 10, "d"⟩]⟩
      = (.ok (), { workFile := .valid ⟨"me", -5, 30, "d"⟩,
                   history := [.valid ⟨"me", -5, 30, "d"⟩,
                               .valid ⟨"me", -5, 10, "d"⟩] }) :=
  c7_refresh_frame refEnvOk 30 _ ⟨"me", -5, 10, "d"⟩ rfl rfl (by decide) rfl rfl
    rfl rfl (by decide)

/-- Witness for C10 at concrete inputs: the session clock is past the
record's expiry, the record is the session's own, and the refresh fails
not-owned with the state unchanged. -/
theorem c10_refresh_expired_not_owned_witness :
    RefreshLock { refEnvOk with now := 20 } 30
        ⟨.valid ⟨"me", -5, 10, "d"⟩, [.valid ⟨"me", -5, 10, "d"⟩]⟩
      = (.error .notOwned,
         ⟨.valid ⟨"me", -5, 10, "d"⟩, [.valid ⟨"me", -5, 10, "d"⟩]⟩) :=
  c10_refresh_expired_not_owned { refEnvOk with now := 20 } 30 _
    ⟨"me", -5, 10, "d"⟩ rfl rfl (by decide) rfl

/-- Witness for C9 at concrete CLI outputs, one per classification bucket. -/
theorem c9_push_classification_witness :
    RepoPush false none = .fetchFailed ∧
    RepoPush true none = .ok ∧
    RepoPush true (some ("abc", "def")) = .pushFailed (classifyPush "abcdef") ∧
    classifyPush "hint: fetch first before pushing" = .fetchFirst ∧
    classifyPush "rejected: non-fast-forward" = .nonFastForward ∧
    classifyPush "remote: permission denied" = .permissionDenied ∧
    classifyPush "! [rejected] main" = .rejected ∧
    classifyPush "couldn\x27t find remote ref main" = .remoteRefMissing ∧
    classifyPush "everything exploded" = .generic :=
  ⟨c9_push_classification.1 none,
   c9_push_classification.2.1,
   c9_push_classification.2.2.1 "abc" "def",
   c9_push_classification.2.2.2.1 "hint: fetch first before pushing" (by decide),
   c9_push_classification.2.2.2.2.1 "rejected: non-fast-forward" (by decide)
     (by decide),
   c9_push_classification.2.2.2.2.2.1 "remote: permission denied" (by decide)
     (by decide) (by decide),
   c9_push_classification.2.2.2.2.2.2.1 "! [rejected] main" (by decide)
     (by decide) (by decide) (by decide),
   c9_push_classification.2.2.2.2.2.2.2.1 "couldn\x27t find remote ref main"
     (by decide) (by decide) (by decide) (by decide) (by decide),
   c9_push_classification.2.2.2.2.2.2.2.2 "everything exploded" (by decide)
     (by decide) (by decide) (by decide) (by decide)⟩

end Gittools
